import Mathlib

/-!
Verification of the mock JSON-RPC server in `test-env/mock-rpc.py`.

The Python handler (`Handler.do_POST`) reads `Content-Length` bytes from the
request stream, decodes them as UTF-8 (outside the `try` block), parses the
text with `json.loads`, and answers every request object with
`{"jsonrpc": "2.0", "id": <id>, "result": "mock_result_for_<method>"}`,
batches element-wise, and any exception raised inside the `try` with the
JSON-RPC parse-error object (code -32700).  The stdlib pieces
(`json.loads`, `json.dumps`, `bytes.decode`, `str()` formatting, `int()`)
are modelled below; repository code is translated directly.
-/

namespace MockRpc

/- JSON values as produced by Python `json.loads`: `None`, `bool`, `int`,
`float` (kept as its source lexeme, since no verified property depends on
float arithmetic), `str`, `list`, `dict` (fields kept in document order;
duplicate keys resolved last-wins, as in a Python dict built by the
parser).  `JsonList` and `JsonFields` are inlined list types so that the
recursive rendering functions are structurally recursive. -/
mutual
inductive Json where
  | null : Json
  | bool : Bool → Json
  | num : Int → Json
  | floatLit : String → Json
  | str : String → Json
  | arr : JsonList → Json
  | obj : JsonFields → Json

inductive JsonList where
  | nil : JsonList
  | cons : Json → JsonList → JsonList

inductive JsonFields where
  | nil : JsonFields
  | cons : String → Json → JsonFields → JsonFields
end

/-- Build a `JsonList` from an ordinary list. -/
def JsonList.ofList : List Json → JsonList
  | [] => .nil
  | j :: js => .cons j (JsonList.ofList js)

/-- Build a `JsonFields` from an ordinary association list. -/
def JsonFields.ofList : List (String × Json) → JsonFields
  | [] => .nil
  | kv :: fs => .cons kv.1 kv.2 (JsonFields.ofList fs)

/-- A single-quote character, used when rendering Python error messages
and `repr` output. -/
def sq : String := String.singleton (Char.ofNat 39)

/-- Last-wins association lookup: the value a Python dict built from this
field list (later duplicates overwrite earlier ones) stores under `k`. -/
def JsonFields.lookupLast (k : String) : JsonFields → Option Json
  | .nil => none
  | .cons k1 v1 rest =>
    match JsonFields.lookupLast k rest with
    | some v => some v
    | none => if k1 = k then some v1 else none

/-- Model of Python `d.get(k)` on a parsed JSON object: the stored value,
or `None` when the key is absent.  Returns `null` on non-objects (callers
that can reach non-objects go through `pyGet`, which raises instead). -/
def Json.get (j : Json) (k : String) : Json :=
  match j with
  | .obj fs => (fs.lookupLast k).getD Json.null
  | _ => Json.null

def Json.isObj : Json → Bool
  | .obj _ => true
  | _ => false

def Json.isArr : Json → Bool
  | .arr _ => true
  | _ => false

/-- The Python type name of a parsed JSON value, as it appears in
`AttributeError` messages. -/
def pyTypeName : Json → String
  | .null => "NoneType"
  | .bool _ => "bool"
  | .num _ => "int"
  | .floatLit _ => "float"
  | .str _ => "str"
  | .arr _ => "list"
  | .obj _ => "dict"

/-- Model of the expression `r.get(k)` in `do_POST`: succeeds with the
dict lookup when `r` is a mapping, otherwise raises `AttributeError`
(modelled as `Except.error` carrying `str(e)`). -/
def pyGet (j : Json) (k : String) : Except String Json :=
  match j with
  | .obj _ => .ok (j.get k)
  | _ => .error (sq ++ pyTypeName j ++ sq ++ " object has no attribute " ++ sq ++ "get" ++ sq)

/-- Lowercase hexadecimal digit, as Python prints in escape sequences. -/
def hexDig (n : Nat) : Char :=
  if n < 10 then Char.ofNat (48 + n) else Char.ofNat (87 + n)

def hex2 (n : Nat) : String :=
  String.mk [hexDig (n / 16 % 16), hexDig (n % 16)]

def hex4 (n : Nat) : String :=
  String.mk [hexDig (n / 4096 % 16), hexDig (n / 256 % 16), hexDig (n / 16 % 16), hexDig (n % 16)]

/-- Model of Python `repr` escaping for one character inside a
single-quoted string literal (the common cases: backslash, quote, and
control characters; printable characters pass through). -/
def pyReprEsc (c : Char) : String :=
  if c = Char.ofNat 92 then "\\\\"
  else if c = Char.ofNat 39 then "\\" ++ sq
  else if c = Char.ofNat 10 then "\\n"
  else if c = Char.ofNat 13 then "\\r"
  else if c = Char.ofNat 9 then "\\t"
  else if c.toNat < 32 then "\\x" ++ hex2 c.toNat
  else String.singleton c

/-- Model of Python `repr` of a `str`: single-quoted with escapes. -/
def pyReprStr (s : String) : String :=
  sq ++ String.join (s.data.map pyReprEsc) ++ sq

/- Model of Python `repr` of a `json.loads` value (mutually with its
rendering of lists and dicts). -/
mutual
def pyRepr : Json → String
  | .null => "None"
  | .bool true => "True"
  | .bool false => "False"
  | .num n => toString n
  | .floatLit s => s
  | .str s => pyReprStr s
  | .arr xs => "[" ++ pyReprList xs ++ "]"
  | .obj fs => "\x7b" ++ pyReprFields fs ++ "\x7d"

def pyReprList : JsonList → String
  | .nil => ""
  | .cons x .nil => pyRepr x
  | .cons x (JsonList.cons y ys) => pyRepr x ++ ", " ++ pyReprList (JsonList.cons y ys)

def pyReprFields : JsonFields → String
  | .nil => ""
  | .cons k v .nil => pyReprStr k ++ ": " ++ pyRepr v
  | .cons k v (JsonFields.cons k1 v1 fs) =>
      pyReprStr k ++ ": " ++ pyRepr v ++ ", " ++ pyReprFields (JsonFields.cons k1 v1 fs)
end

/-- Model of Python `str()` applied to a `json.loads` value, which is what
the f-string `f"mock_result_for_..."` interpolates: `None`,
`True`/`False`, decimal integers, strings verbatim, `repr` for containers. -/
def pyStr (j : Json) : String :=
  match j with
  | .str s => s
  | _ => pyRepr j

/-- Model of `json.dumps` escaping of one character with the default
`ensure_ascii=True`: the two mandatory escapes, the short escapes, and
`\uXXXX` for every other control or non-ASCII character (astral code
points become surrogate pairs). -/
def jsonEscChar (c : Char) : String :=
  if c = Char.ofNat 34 then "\\\""
  else if c = Char.ofNat 92 then "\\\\"
  else if c = Char.ofNat 10 then "\\n"
  else if c = Char.ofNat 13 then "\\r"
  else if c = Char.ofNat 9 then "\\t"
  else if c = Char.ofNat 8 then "\\b"
  else if c = Char.ofNat 12 then "\\f"
  else if c.toNat < 32 || c.toNat > 126 then
    if c.toNat ≤ 65535 then "\\u" ++ hex4 c.toNat
    else
      "\\u" ++ hex4 (55296 + (c.toNat - 65536) / 1024) ++
      "\\u" ++ hex4 (56320 + (c.toNat - 65536) % 1024)
  else String.singleton c

/-- Model of `json.dumps` of a `str`. -/
def dumpStr (s : String) : String :=
  "\"" ++ String.join (s.data.map jsonEscChar) ++ "\""

/- Model of Python `json.dumps` with default separators; fields are
emitted in dict insertion order, matching CPython. -/
mutual
def jsonDumps : Json → String
  | .null => "null"
  | .bool true => "true"
  | .bool false => "false"
  | .num n => toString n
  | .floatLit s => s
  | .str s => dumpStr s
  | .arr xs => "[" ++ dumpsList xs ++ "]"
  | .obj fs => "\x7b" ++ dumpsFields fs ++ "\x7d"

def dumpsList : JsonList → String
  | .nil => ""
  | .cons x .nil => jsonDumps x
  | .cons x (JsonList.cons y ys) => jsonDumps x ++ ", " ++ dumpsList (JsonList.cons y ys)

def dumpsFields : JsonFields → String
  | .nil => ""
  | .cons k v .nil => dumpStr k ++ ": " ++ jsonDumps v
  | .cons k v (JsonFields.cons k1 v1 fs) =>
      dumpStr k ++ ": " ++ jsonDumps v ++ ", " ++ dumpsFields (JsonFields.cons k1 v1 fs)
end

/-- Modelled from CPython: strict UTF-8 decoding of a byte sequence, as
performed by `bytes.decode` with encoding `utf-8`.  Rejects
continuation-byte errors, overlong encodings, surrogates and
out-of-range sequences, in which case Python raises `UnicodeDecodeError`
(modelled as `none`).  Fuelled by list length. -/
def utf8Cont (b : Nat) : Bool := 128 ≤ b && b ≤ 191

def utf8DecodeAux : Nat → List Nat → Option (List Char)
  | _, [] => some []
  | 0, _ :: _ => none
  | fuel+1, b :: bs =>
    if b ≤ 127 then
      (utf8DecodeAux fuel bs).map (fun cs => Char.ofNat b :: cs)
    else if 194 ≤ b && b ≤ 223 then
      match bs with
      | c1 :: bs1 =>
        if utf8Cont c1 then
          (utf8DecodeAux fuel bs1).map
            (fun cs => Char.ofNat ((b - 192) * 64 + (c1 - 128)) :: cs)
        else none
      | [] => none
    else if 224 ≤ b && b ≤ 239 then
      match bs with
      | c1 :: c2 :: bs1 =>
        let lo1 : Nat := if b = 224 then 160 else 128
        let hi1 : Nat := if b = 237 then 159 else 191
        if lo1 ≤ c1 && c1 ≤ hi1 && utf8Cont c2 then
          (utf8DecodeAux fuel bs1).map
            (fun cs => Char.ofNat ((b - 224) * 4096 + (c1 - 128) * 64 + (c2 - 128)) :: cs)
        else none
      | _ => none
    else if 240 ≤ b && b ≤ 244 then
      match bs with
      | c1 :: c2 :: c3 :: bs1 =>
        let lo1 : Nat := if b = 240 then 144 else 128
        let hi1 : Nat := if b = 244 then 143 else 191
        if lo1 ≤ c1 && c1 ≤ hi1 && utf8Cont c2 && utf8Cont c3 then
          (utf8DecodeAux fuel bs1).map
            (fun cs =>
              Char.ofNat ((b - 240) * 262144 + (c1 - 128) * 4096 +
                (c2 - 128) * 64 + (c3 - 128)) :: cs)
        else none
      | _ => none
    else none

def utf8Decode (bs : List Nat) : Option String :=
  (utf8DecodeAux bs.length bs).map String.mk

/-- Whitespace skipped by the `json` module: space, tab, newline, return. -/
def jsonWsChar (c : Char) : Bool :=
  c = ' ' || c = Char.ofNat 9 || c = Char.ofNat 10 || c = Char.ofNat 13

def skipWs : List Char → List Char
  | [] => []
  | c :: cs => if jsonWsChar c then skipWs cs else c :: cs

/-- Consume an expected literal character sequence. -/
def dropLit : List Char → List Char → Option (List Char)
  | [], cs => some cs
  | _ :: _, [] => none
  | l :: ls, c :: cs => if c = l then dropLit ls cs else none

def isDig (c : Char) : Bool := 48 ≤ c.toNat && c.toNat ≤ 57

def takeDigits : List Char → List Char × List Char
  | [] => ([], [])
  | c :: cs =>
    if isDig c then
      let p := takeDigits cs
      (c :: p.1, p.2)
    else ([], c :: cs)

def digitsToNat (ds : List Char) : Nat :=
  ds.foldl (fun a c => a * 10 + (c.toNat - 48)) 0

def hexVal (c : Char) : Option Nat :=
  if 48 ≤ c.toNat ∧ c.toNat ≤ 57 then some (c.toNat - 48)
  else if 97 ≤ c.toNat ∧ c.toNat ≤ 102 then some (c.toNat - 87)
  else if 65 ≤ c.toNat ∧ c.toNat ≤ 70 then some (c.toNat - 55)
  else none

def parseHex4 : List Char → Option (Nat × List Char)
  | a :: b :: c :: d :: rest =>
    match hexVal a, hexVal b, hexVal c, hexVal d with
    | some va, some vb, some vc, some vd =>
        some (va * 4096 + vb * 256 + vc * 16 + vd, rest)
    | _, _, _, _ => none
  | _ => none

/-- JSON short string escapes. -/
def escMap (c : Char) : Option Char :=
  if c = Char.ofNat 34 then some (Char.ofNat 34)
  else if c = Char.ofNat 92 then some (Char.ofNat 92)
  else if c = Char.ofNat 47 then some (Char.ofNat 47)
  else if c = 'b' then some (Char.ofNat 8)
  else if c = 'f' then some (Char.ofNat 12)
  else if c = 'n' then some (Char.ofNat 10)
  else if c = 'r' then some (Char.ofNat 13)
  else if c = 't' then some (Char.ofNat 9)
  else none

/-- Modelled from CPython `json`: the body of a double-quoted JSON string
after the opening quote, returning the decoded characters and the rest of
the input.  Surrogate pairs in `\uXXXX` escapes are combined; a lone
surrogate escape is rejected here (CPython would produce a surrogate
`str`, which has no `Char` counterpart; no verified claim depends on
it).  Error strings model the exception descriptions abstractly. -/
def parseStringBody : Nat → List Char → Except String (List Char × List Char)
  | 0, _ => .error "Unterminated string"
  | _+1, [] => .error "Unterminated string"
  | fuel+1, c :: rest =>
    if c.toNat = 34 then .ok ([], rest)
    else if c.toNat = 92 then
      match rest with
      | [] => .error "Unterminated string"
      | e :: rest1 =>
        if e = 'u' then
          match parseHex4 rest1 with
          | none => .error "Invalid hex escape"
          | some (n, rest2) =>
            if 55296 ≤ n ∧ n ≤ 56319 then
              match rest2 with
              | c1 :: c2 :: rest3 =>
                if c1.toNat = 92 ∧ c2 = 'u' then
                  match parseHex4 rest3 with
                  | some (n2, rest4) =>
                    if 56320 ≤ n2 ∧ n2 ≤ 57343 then
                      (parseStringBody fuel rest4).map
                        (fun p => (Char.ofNat (65536 + (n - 55296) * 1024 + (n2 - 56320)) :: p.1, p.2))
                    else .error "Unpaired surrogate escape"
                  | none => .error "Invalid hex escape"
                else .error "Unpaired surrogate escape"
              | _ => .error "Unpaired surrogate escape"
            else if 56320 ≤ n ∧ n ≤ 57343 then .error "Unpaired surrogate escape"
            else (parseStringBody fuel rest2).map (fun p => (Char.ofNat n :: p.1, p.2))
        else
          match escMap e with
          | some ec => (parseStringBody fuel rest1).map (fun p => (ec :: p.1, p.2))
          | none => .error "Invalid escape"
    else if c.toNat < 32 then .error "Invalid control character"
    else (parseStringBody fuel rest).map (fun p => (c :: p.1, p.2))

def parseFracPart : List Char → Option (List Char × List Char)
  | c :: rest =>
    if c = '.' then
      match takeDigits rest with
      | ([], _) => none
      | (ds, r) => some (c :: ds, r)
    else none
  | [] => none

def parseExpPart : List Char → Option (List Char × List Char)
  | e :: rest =>
    if e = 'e' ∨ e = 'E' then
      let sr : List Char × List Char :=
        match rest with
        | s :: r => if s = '+' ∨ s = '-' then ([s], r) else ([], rest)
        | [] => ([], [])
      match takeDigits sr.2 with
      | ([], _) => none
      | (ds, r) => some (e :: (sr.1 ++ ds), r)
    else none
  | [] => none

/-- Modelled from CPython `json`: a number at the head of the input (sign
already consumed when `neg`).  Integers follow the JSON grammar
(`0` or a nonzero-led digit run); a fraction or exponent part makes the
token a float, kept as its lexeme in `Json.floatLit`. -/
def parseNumber (neg : Bool) (cs : List Char) : Except String (Json × List Char) :=
  let ir : List Char × List Char :=
    match cs with
    | c :: cs1 => if c = '0' then (['0'], cs1) else takeDigits cs
    | [] => ([], [])
  if ir.1.isEmpty then .error "Expecting value"
  else
    let fr := (parseFracPart ir.2).getD ([], ir.2)
    let er := (parseExpPart fr.2).getD ([], fr.2)
    if fr.1.isEmpty ∧ er.1.isEmpty then
      .ok (Json.num (if neg then -(digitsToNat ir.1 : Int) else (digitsToNat ir.1 : Int)), ir.2)
    else
      .ok (Json.floatLit (String.mk ((if neg then ['-'] else []) ++ ir.1 ++ fr.1 ++ er.1)), er.2)

/-- Parser modes: a single value, the elements of an array after `[`, or
the fields of an object after the opening brace. -/
inductive PMode where
  | val : PMode
  | elems : PMode
  | fields : PMode

inductive POut where
  | val : Json → POut
  | elems : List Json → POut
  | fields : List (String × Json) → POut

/-- Modelled from CPython `json.loads`: recursive-descent parse, fuelled
so the recursion is structural (`2 * length + 2` fuel always suffices,
two units per consumed delimiter).  Supports all JSON value forms plus
the CPython extensions `NaN`, `Infinity`, `-Infinity`.  Error strings
model the exception descriptions abstractly. -/
def parseF : Nat → PMode → List Char → Except String (POut × List Char)
  | 0, _, _ => .error "Expecting value"
  | fuel+1, .val, cs =>
    match skipWs cs with
    | [] => .error "Expecting value"
    | c :: rest =>
      if c = 'n' then
        match dropLit ['u', 'l', 'l'] rest with
        | some r => .ok (.val Json.null, r)
        | none => .error "Expecting value"
      else if c = 't' then
        match dropLit ['r', 'u', 'e'] rest with
        | some r => .ok (.val (Json.bool true), r)
        | none => .error "Expecting value"
      else if c = 'f' then
        match dropLit ['a', 'l', 's', 'e'] rest with
        | some r => .ok (.val (Json.bool false), r)
        | none => .error "Expecting value"
      else if c = 'N' then
        match dropLit ['a', 'N'] rest with
        | some r => .ok (.val (Json.floatLit "nan"), r)
        | none => .error "Expecting value"
      else if c = 'I' then
        match dropLit ['n', 'f', 'i', 'n', 'i', 't', 'y'] rest with
        | some r => .ok (.val (Json.floatLit "inf"), r)
        | none => .error "Expecting value"
      else if c.toNat = 34 then
        match parseStringBody rest.length rest with
        | .ok p => .ok (.val (Json.str (String.mk p.1)), p.2)
        | .error e => .error e
      else if c = '-' then
        match rest with
        | 'I' :: r2 =>
          match dropLit ['n', 'f', 'i', 'n', 'i', 't', 'y'] r2 with
          | some r => .ok (.val (Json.floatLit "-inf"), r)
          | none => .error "Expecting value"
        | _ =>
          match parseNumber true rest with
          | .ok p => .ok (.val p.1, p.2)
          | .error e => .error e
      else if isDig c then
        match parseNumber false (c :: rest) with
        | .ok p => .ok (.val p.1, p.2)
        | .error e => .error e
      else if c.toNat = 91 then
        match skipWs rest with
        | c1 :: r2 =>
          if c1.toNat = 93 then .ok (.val (Json.arr .nil), r2)
          else
            match parseF fuel .elems (c1 :: r2) with
            | .ok (POut.elems vs, r) => .ok (.val (Json.arr (JsonList.ofList vs)), r)
            | .ok _ => .error "Expecting value"
            | .error e => .error e
        | [] => .error "Expecting value"
      else if c.toNat = 123 then
        match skipWs rest with
        | c1 :: r2 =>
          if c1.toNat = 125 then .ok (.val (Json.obj .nil), r2)
          else
            match parseF fuel .fields (c1 :: r2) with
            | .ok (POut.fields fs, r) => .ok (.val (Json.obj (JsonFields.ofList fs)), r)
            | .ok _ => .error "Expecting property name"
            | .error e => .error e
        | [] => .error "Expecting property name"
      else .error "Expecting value"
  | fuel+1, .elems, cs =>
    match parseF fuel .val cs with
    | .error e => .error e
    | .ok (POut.val v, r) =>
      match skipWs r with
      | c :: r2 =>
        if c = ',' then
          match parseF fuel .elems r2 with
          | .ok (POut.elems vs, r3) => .ok (.elems (v :: vs), r3)
          | .ok _ => .error "Expecting value"
          | .error e => .error e
        else if c.toNat = 93 then .ok (.elems [v], r2)
        else .error "Expecting delimiter"
      | [] => .error "Expecting delimiter"
    | .ok _ => .error "Expecting value"
  | fuel+1, .fields, cs =>
    match skipWs cs with
    | c :: r =>
      if c.toNat = 34 then
        match parseStringBody r.length r with
        | .error e => .error e
        | .ok kp =>
          match skipWs kp.2 with
          | c2 :: r2 =>
            if c2 = ':' then
              match parseF fuel .val r2 with
              | .error e => .error e
              | .ok (POut.val v, r3) =>
                match skipWs r3 with
                | c3 :: r4 =>
                  if c3 = ',' then
                    match parseF fuel .fields r4 with
                    | .ok (POut.fields fs, r5) => .ok (.fields ((String.mk kp.1, v) :: fs), r5)
                    | .ok _ => .error "Expecting property name"
                    | .error e => .error e
                  else if c3.toNat = 125 then .ok (.fields [(String.mk kp.1, v)], r4)
                  else .error "Expecting delimiter"
                | [] => .error "Expecting delimiter"
              | .ok _ => .error "Expecting value"
            else .error "Expecting colon delimiter"
          | [] => .error "Expecting colon delimiter"
      else .error "Expecting property name"
    | [] => .error "Expecting property name"

/-- Model of `json.loads`: parse one value, then require only whitespace
to remain (CPython raises `Extra data` otherwise). -/
def jsonLoads (s : String) : Except String Json :=
  match parseF (2 * s.length + 2) .val s.data with
  | .error e => .error e
  | .ok (POut.val v, rest) =>
    match skipWs rest with
    | [] => .ok v
    | _ :: _ => .error "Extra data"
  | .ok _ => .error "Expecting value"

/-- Model of Python `int(s)` (base 10): strip ASCII whitespace, optional
sign, at least one digit.  `none` models `ValueError`.  (Python also
accepts digit-group underscores; not modelled, no claim depends on it.) -/
def pyWsChar (c : Char) : Bool :=
  c = ' ' || c = Char.ofNat 9 || c = Char.ofNat 10 || c = Char.ofNat 13 ||
  c = Char.ofNat 11 || c = Char.ofNat 12

def natOfDigitsAux (acc : Nat) : List Char → Option Nat
  | [] => some acc
  | c :: cs => if isDig c then natOfDigitsAux (acc * 10 + (c.toNat - 48)) cs else none

def natOfDigits : List Char → Option Nat
  | [] => none
  | c :: cs => if isDig c then natOfDigitsAux (c.toNat - 48) cs else none

def pyInt (s : String) : Option Int :=
  let cs := ((s.data.dropWhile pyWsChar).reverse.dropWhile pyWsChar).reverse
  match cs with
  | [] => none
  | c :: ds =>
    if c = '+' then (natOfDigits ds).map (fun n => (n : Int))
    else if c = '-' then (natOfDigits ds).map (fun n => -(n : Int))
    else (natOfDigits (c :: ds)).map (fun n => (n : Int))

/-- The value of `int(self.headers.get(..., 0))`: the default `0` when
the `Content-Length` header is absent, otherwise `int(<header text>)`;
`none` models an uncaught `ValueError` on a non-numeric header. -/
def contentLengthVal : Option String → Option Int
  | none => some 0
  | some s => pyInt s

/-- `self.rfile.read(length)`: the first `length` bytes of the request
stream (all of it for a negative argument, as Python `read` does). -/
def readBody (n : Int) (stream : List Nat) : List Nat :=
  if n < 0 then stream else stream.take n.toNat

/-- The response dict built for one request element `r` in `do_POST`:
`{"jsonrpc": "2.0", "id": r.get("id"), "result": f"mock_result_for_..."}`. -/
def respObjOf (r : Json) : Json :=
  Json.obj (JsonFields.ofList
    [("jsonrpc", Json.str "2.0"), ("id", r.get "id"),
     ("result", Json.str ("mock_result_for_" ++ pyStr (r.get "method")))])

/-- Building one response dict, with the exception behaviour of the dict
literal in `do_POST`: evaluating `r.get("id")` (and then the f-string on
`r.get("method")`) raises `AttributeError` when `r` is not a mapping. -/
def respFor (r : Json) : Except String Json :=
  match pyGet r "id" with
  | .error e => .error e
  | .ok i =>
    match pyGet r "method" with
    | .error e => .error e
    | .ok m =>
      .ok (Json.obj (JsonFields.ofList
        [("jsonrpc", Json.str "2.0"), ("id", i),
         ("result", Json.str ("mock_result_for_" ++ pyStr m))]))

/-- The `for r in req` loop of the batch branch: one response per
element, in order; the first non-mapping element raises and the partial
`responses` list is discarded by the `except` handler. -/
def batchLoop : JsonList → Except String JsonList
  | .nil => .ok .nil
  | .cons r rs =>
    match respFor r with
    | .error e => .error e
    | .ok resp =>
      match batchLoop rs with
      | .error e => .error e
      | .ok rest => .ok (.cons resp rest)

/-- The parse-error response dict built in the `except` branch, with
`msg` the `str(e)` of the caught exception. -/
def errorResp (msg : String) : Json :=
  Json.obj (JsonFields.ofList
    [("jsonrpc", Json.str "2.0"), ("id", Json.null),
     ("error", Json.obj (JsonFields.ofList
        [("code", Json.num (-32700)), ("message", Json.str ("Parse error: " ++ msg))]))])

/-- The `try`/`except` of `do_POST`, from `json.loads` onward: batch
branch for lists, single branch otherwise, and any raised exception
replaced by the parse-error response. -/
def tryBlock (parsed : Except String Json) : Json :=
  let attempt : Except String Json :=
    match parsed with
    | .error e => .error e
    | .ok req =>
      match req with
      | .arr rs =>
        match batchLoop rs with
        | .ok resps => .ok (Json.arr resps)
        | .error e => .error e
      | _ => respFor req
  match attempt with
  | .ok j => j
  | .error e => errorResp e

/-- What `do_POST` writes back to the client: status line, content type
header, serialized body. -/
structure HttpOutput where
  status : Nat
  contentType : String
  body : String
deriving DecidableEq

/-- `do_POST` from the decoded body text onward: always an HTTP 200 with
`Content-Type: application/json` and the dumped response. -/
def doPOSTstr (body : String) : HttpOutput :=
  ⟨200, "application/json", jsonDumps (tryBlock (jsonLoads body))⟩

/-- The whole of `Handler.do_POST` on one request, given the
`Content-Length` header value (if any) and the request byte stream.
`none` models an exception escaping the handler (non-numeric header, or
a UTF-8 decode error: `.decode` is evaluated before the `try` block, so
nothing is written to the client in those cases). -/
def doPOST (contentLength : Option String) (stream : List Nat) : Option HttpOutput :=
  match contentLengthVal contentLength with
  | none => none
  | some n =>
    match utf8Decode (readBody n stream) with
    | none => none
    | some body => some (doPOSTstr body)

/-- The server loop: connections handled one at a time, each by a fresh
`Handler` instance.  The `Handler` class defines no class-level mutable
state and `do_POST` reads only the current request, so each response is
computed from its own request alone. -/
def serve : List (Option String × List Nat) → List (Option HttpOutput)
  | [] => []
  | r :: rs => doPOST r.1 r.2 :: serve rs

/-! Helper lemmas shared by the claim theorems. -/

theorem respFor_obj (fs : JsonFields) :
    respFor (Json.obj fs) = .ok (respObjOf (Json.obj fs)) := rfl

theorem respFor_isObj_err (r : Json) (h : r.isObj = false) :
    ∃ e, respFor r = .error e := by
  cases r <;> first
    | exact ⟨_, rfl⟩
    | simp [Json.isObj] at h

theorem batchLoop_ok (rs : List Json) (h : ∀ r ∈ rs, r.isObj = true) :
    batchLoop (JsonList.ofList rs) = .ok (JsonList.ofList (rs.map respObjOf)) := by
  induction rs with
  | nil => rfl
  | cons r rs ih =>
    have hr := h r (by simp)
    have hrest := ih (fun x hx => h x (by simp [hx]))
    cases r <;> simp [Json.isObj] at hr
    simp [JsonList.ofList, batchLoop, respFor_obj, hrest, List.map]

theorem batchLoop_err (rs : List Json) (h : ∃ r ∈ rs, r.isObj = false) :
    ∃ e, batchLoop (JsonList.ofList rs) = .error e := by
  induction rs with
  | nil => simp at h
  | cons r rs ih =>
    obtain ⟨x, hx, hxo⟩ := h
    rcases List.mem_cons.mp hx with heq | hmem
    · subst heq
      obtain ⟨e, he⟩ := respFor_isObj_err x hxo
      exact ⟨e, by simp [JsonList.ofList, batchLoop, he]⟩
    · cases hro : r.isObj with
      | false =>
        obtain ⟨e, he⟩ := respFor_isObj_err r hro
        exact ⟨e, by simp [JsonList.ofList, batchLoop, he]⟩
      | true =>
        obtain ⟨e, he⟩ := ih ⟨x, hmem, hxo⟩
        refine ⟨e, ?_⟩
        cases r <;> simp [Json.isObj] at hro
        simp [JsonList.ofList, batchLoop, respFor_obj, he]

theorem tryBlock_error (e : String) : tryBlock (.error e) = errorResp e := rfl

theorem tryBlock_obj (fs : JsonFields) :
    tryBlock (.ok (Json.obj fs)) = respObjOf (Json.obj fs) := rfl

theorem doPOSTstr_eq (body : String) :
    doPOSTstr body = ⟨200, "application/json", jsonDumps (tryBlock (jsonLoads body))⟩ := rfl

/-! The claims. -/

/-- Claim C1: for every HTTP POST whose body is a well-formed JSON object
containing a string field `method` with value `m` and a field `id` with
value `i`, the response body is exactly the JSON object
`{"jsonrpc": "2.0", "id": i, "result": "mock_result_for_m"}` (together
with HTTP 200 and `Content-Type: application/json`). -/
theorem c1_single_request (body : String) (fs : JsonFields) (m : String) (i : Json)
    (hp : jsonLoads body = .ok (Json.obj fs))
    (hm : (Json.obj fs).get "method" = Json.str m)
    (hi : (Json.obj fs).get "id" = i) :
    doPOSTstr body = ⟨200, "application/json",
      jsonDumps (Json.obj (JsonFields.ofList
        [("jsonrpc", Json.str "2.0"), ("id", i),
         ("result", Json.str ("mock_result_for_" ++ m))]))⟩ := by
  have h1 : tryBlock (jsonLoads body) =
      Json.obj (JsonFields.ofList
        [("jsonrpc", Json.str "2.0"), ("id", i),
         ("result", Json.str ("mock_result_for_" ++ m))]) := by
    rw [hp, tryBlock_obj]
    simp [respObjOf, hm, hi, pyStr]
  rw [doPOSTstr_eq, h1]

/-- Witness for C1 at the documented example body. -/
theorem c1_single_request_witness :
    doPOSTstr "\x7b\"jsonrpc\":\"2.0\",\"id\":1,\"method\":\"eth_blockNumber\"\x7d" =
      ⟨200, "application/json",
        jsonDumps (Json.obj (JsonFields.ofList
          [("jsonrpc", Json.str "2.0"), ("id", Json.num 1),
           ("result", Json.str ("mock_result_for_" ++ "eth_blockNumber"))]))⟩ :=
  c1_single_request _
    (JsonFields.ofList
      [("jsonrpc", Json.str "2.0"), ("id", Json.num 1),
       ("method", Json.str "eth_blockNumber")])
    "eth_blockNumber" (Json.num 1) rfl rfl rfl

/-- Claim C2: for every HTTP POST whose body is a JSON array of request
mappings, the response body is the JSON array of the per-element
response objects, same length, the k-th built from the k-th request
element (id and method of that element), in input order. -/
theorem c2_batch (body : String) (rs : List Json)
    (hp : jsonLoads body = .ok (Json.arr (JsonList.ofList rs)))
    (hobj : ∀ r ∈ rs, r.isObj = true) :
    doPOSTstr body = ⟨200, "application/json",
      jsonDumps (Json.arr (JsonList.ofList (rs.map respObjOf)))⟩ ∧
    (rs.map respObjOf).length = rs.length ∧
    ∀ k : Nat, (rs.map respObjOf)[k]? = (rs[k]?).map respObjOf := by
  refine ⟨?_, List.length_map .., fun k => List.getElem?_map ..⟩
  have h1 : tryBlock (jsonLoads body) = Json.arr (JsonList.ofList (rs.map respObjOf)) := by
    rw [hp]
    simp [tryBlock, batchLoop_ok rs hobj]
  rw [doPOSTstr_eq, h1]

/-- Witness for C2 at the documented two-element example. -/
theorem c2_batch_witness :
    doPOSTstr "[\x7b\"id\":1,\"method\":\"a\"\x7d,\x7b\"id\":2,\"method\":\"b\"\x7d]" =
      ⟨200, "application/json",
        jsonDumps (Json.arr (JsonList.ofList
          ([Json.obj (JsonFields.ofList [("id", Json.num 1), ("method", Json.str "a")]),
            Json.obj (JsonFields.ofList [("id", Json.num 2), ("method", Json.str "b")])].map
            respObjOf)))⟩ :=
  (c2_batch "[\x7b\"id\":1,\"method\":\"a\"\x7d,\x7b\"id\":2,\"method\":\"b\"\x7d]"
    [Json.obj (JsonFields.ofList [("id", Json.num 1), ("method", Json.str "a")]),
     Json.obj (JsonFields.ofList [("id", Json.num 2), ("method", Json.str "b")])]
    rfl (by
      intro r hr
      simp only [List.mem_cons, List.not_mem_nil, or_false] at hr
      rcases hr with rfl | rfl <;> rfl)).1

/-- Claim C5: a request mapping lacking `id` gets response id `null`, and
one lacking `method` still gets a success object whose result string is
`mock_result_for_None` (Python renders the missing value as `None`);
neither missing field causes an error response. -/
theorem c5_missing_fields (body : String) (fs : JsonFields)
    (hp : jsonLoads body = .ok (Json.obj fs)) :
    doPOSTstr body = ⟨200, "application/json", jsonDumps (respObjOf (Json.obj fs))⟩ ∧
    (fs.lookupLast "id" = none → (Json.obj fs).get "id" = Json.null) ∧
    (fs.lookupLast "method" = none →
      pyStr ((Json.obj fs).get "method") = "None") := by
  refine ⟨?_, ?_, ?_⟩
  · have h1 : tryBlock (jsonLoads body) = respObjOf (Json.obj fs) := by
      rw [hp, tryBlock_obj]
    rw [doPOSTstr_eq, h1]
  · intro h; simp [Json.get, h]
  · intro h; simp [Json.get, h, pyStr, pyRepr]

/-- Witness for C5 at the empty-object body, which lacks both fields. -/
theorem c5_missing_fields_witness :
    doPOSTstr "\x7b\x7d" =
      ⟨200, "application/json", jsonDumps (respObjOf (Json.obj JsonFields.nil))⟩ ∧
    (JsonFields.nil.lookupLast "id" = none → (Json.obj JsonFields.nil).get "id" = Json.null) ∧
    (JsonFields.nil.lookupLast "method" = none →
      pyStr ((Json.obj JsonFields.nil).get "method") = "None") :=
  c5_missing_fields "\x7b\x7d" JsonFields.nil rfl

/-- Counterexample to C3 as stated: the byte `0xFF` (with a matching
`Content-Length`) makes UTF-8 decoding raise, but since `.decode` runs
before the `try` block the exception is not caught and no response body
is produced at all (modelled by `none`), rather than the claimed parse
error object. -/
theorem c3_counterexample :
    utf8Decode (readBody 1 [255]) = none ∧ doPOST (some "1") [255] = none :=
  ⟨rfl, rfl⟩

/-- Claim C3 as amended: for every POST body that decodes as UTF-8 but
whose JSON parsing raises, the handler responds with exactly
`{"jsonrpc": "2.0", "id": null, "error": {"code": -32700, "message":
"Parse error: <description>"}}`; a body whose UTF-8 decoding raises is
not handled (the decode happens outside the `try`) and yields no
response. -/
theorem c3_parse_error_response (cl : Option String) (stream : List Nat)
    (n : Int) (s : String) (e : String)
    (hn : contentLengthVal cl = some n)
    (hd : utf8Decode (readBody n stream) = some s)
    (hp : jsonLoads s = .error e) :
    doPOST cl stream = some ⟨200, "application/json", jsonDumps (errorResp e)⟩ := by
  simp [doPOST, hn, hd, doPOSTstr, hp, tryBlock_error]

/-- Witness for the amended C3 at the empty body. -/
theorem c3_parse_error_response_witness :
    doPOST none [] = some ⟨200, "application/json", jsonDumps (errorResp "Expecting value")⟩ :=
  c3_parse_error_response none [] 0 "" "Expecting value" rfl rfl rfl

/-- Counterexample to C4 as stated: the one-byte body `0xFF` causes an
uncaught `UnicodeDecodeError`, so the handler does not run to completion
and nothing (no status line, no body) is written to the client. -/
theorem c4_counterexample : doPOST (some "1") [255] = none := rfl

/-- Claim C4 as amended: for every POST request whose `Content-Length`
header parses as an integer and whose read body is valid UTF-8
(malformed JSON included), the handler runs to completion and writes
HTTP 200, `Content-Type: application/json`, and a serialized JSON body;
a body that is not valid UTF-8 raises an uncaught exception instead. -/
theorem c4_valid_utf8_always_200 (cl : Option String) (stream : List Nat)
    (n : Int) (s : String)
    (hn : contentLengthVal cl = some n)
    (hd : utf8Decode (readBody n stream) = some s) :
    doPOST cl stream = some ⟨200, "application/json", jsonDumps (tryBlock (jsonLoads s))⟩ := by
  simp [doPOST, hn, hd, doPOSTstr]

/-- Witness for the amended C4 at the malformed body `not`. -/
theorem c4_valid_utf8_always_200_witness :
    doPOST (some "3") [110, 111, 116] =
      some ⟨200, "application/json", jsonDumps (tryBlock (jsonLoads "not"))⟩ :=
  c4_valid_utf8_always_200 (some "3") [110, 111, 116] 3 "not" rfl rfl

/-- Claim C6: with no `Content-Length` header the body is read with
length zero (the default `0` of `headers.get`), and the resulting empty
body yields the parse-error response object with code -32700. -/
theorem c6_absent_content_length (stream : List Nat) :
    doPOST none stream = some (doPOSTstr "") ∧
    readBody 0 stream = [] ∧
    ∃ msg, doPOSTstr "" = ⟨200, "application/json", jsonDumps (errorResp msg)⟩ :=
  ⟨rfl, rfl, "Expecting value", rfl⟩

/-- Requests agreeing on what `do_POST` consumes: equal `id` and equal
`method` lookups. -/
def agreeIdMethod (r1 r2 : Json) : Prop :=
  r1.get "id" = r2.get "id" ∧ r1.get "method" = r2.get "method"

theorem respObjOf_congr (r1 r2 : Json)
    (hid : r1.get "id" = r2.get "id") (hm : r1.get "method" = r2.get "method") :
    respObjOf r1 = respObjOf r2 := by
  simp [respObjOf, hid, hm]

theorem map_respObjOf_congr (l1 l2 : List Json)
    (h : List.Forall₂ agreeIdMethod l1 l2) :
    l1.map respObjOf = l2.map respObjOf := by
  induction h with
  | nil => rfl
  | cons ha _ ih => simp [List.map, ih, respObjOf_congr _ _ ha.1 ha.2]

/-- Claim C7: the `jsonrpc` and `params` fields are ignored — two single
request mappings (or two batches, element-wise) that agree on the `id`
and `method` lookups produce identical response bodies, whatever their
other fields hold. -/
theorem c7_jsonrpc_params_ignored (b1 b2 : String) :
    (∀ f1 f2 : JsonFields,
      jsonLoads b1 = .ok (Json.obj f1) → jsonLoads b2 = .ok (Json.obj f2) →
      agreeIdMethod (Json.obj f1) (Json.obj f2) → doPOSTstr b1 = doPOSTstr b2) ∧
    (∀ l1 l2 : List Json,
      jsonLoads b1 = .ok (Json.arr (JsonList.ofList l1)) →
      jsonLoads b2 = .ok (Json.arr (JsonList.ofList l2)) →
      (∀ r ∈ l1, r.isObj = true) → (∀ r ∈ l2, r.isObj = true) →
      List.Forall₂ agreeIdMethod l1 l2 → doPOSTstr b1 = doPOSTstr b2) := by
  constructor
  · intro f1 f2 h1 h2 hagree
    rw [doPOSTstr_eq, doPOSTstr_eq, h1, h2, tryBlock_obj, tryBlock_obj,
      respObjOf_congr _ _ hagree.1 hagree.2]
  · intro l1 l2 h1 h2 ho1 ho2 hf
    rw [doPOSTstr_eq, doPOSTstr_eq, h1, h2]
    simp [tryBlock, batchLoop_ok l1 ho1, batchLoop_ok l2 ho2,
      map_respObjOf_congr l1 l2 hf]

/-- Witness for C7: same `id`/`method`, different `jsonrpc`/`params`. -/
theorem c7_jsonrpc_params_ignored_witness :
    doPOSTstr "\x7b\"id\":1,\"method\":\"a\",\"params\":[1,2],\"jsonrpc\":\"x\"\x7d" =
      doPOSTstr "\x7b\"jsonrpc\":\"2.0\",\"id\":1,\"method\":\"a\"\x7d" :=
  (c7_jsonrpc_params_ignored
      "\x7b\"id\":1,\"method\":\"a\",\"params\":[1,2],\"jsonrpc\":\"x\"\x7d"
      "\x7b\"jsonrpc\":\"2.0\",\"id\":1,\"method\":\"a\"\x7d").1
    (JsonFields.ofList
      [("id", Json.num 1), ("method", Json.str "a"),
       ("params", Json.arr (JsonList.ofList [Json.num 1, Json.num 2])),
       ("jsonrpc", Json.str "x")])
    (JsonFields.ofList
      [("jsonrpc", Json.str "2.0"), ("id", Json.num 1), ("method", Json.str "a")])
    rfl rfl ⟨rfl, rfl⟩

theorem serve_eq_map (reqs : List (Option String × List Nat)) :
    serve reqs = reqs.map (fun r => doPOST r.1 r.2) := by
  induction reqs with
  | nil => rfl
  | cons r rs ih => simp [serve, ih]

/-- Claim C8: request handling is stateless and deterministic — in the
serial server loop the k-th response is a function of the k-th request
alone (no earlier or later request influences it), and two positions
holding byte-identical requests receive identical responses. -/
theorem c8_stateless_deterministic :
    (∀ reqs reqs' : List (Option String × List Nat), ∀ k : Nat,
      reqs[k]? = reqs'[k]? → (serve reqs)[k]? = (serve reqs')[k]?) ∧
    (∀ reqs : List (Option String × List Nat), ∀ i j : Nat,
      reqs[i]? = reqs[j]? → (serve reqs)[i]? = (serve reqs)[j]?) := by
  constructor
  · intro reqs reqs' k h
    rw [serve_eq_map, serve_eq_map, List.getElem?_map, List.getElem?_map, h]
  · intro reqs i j h
    rw [serve_eq_map, List.getElem?_map, List.getElem?_map, h]

/-- Witness for C8: the first response is unchanged by a later request. -/
theorem c8_stateless_deterministic_witness :
    (serve [(none, [])])[0]? = (serve [(none, []), (some "1", [255])])[0]? :=
  c8_stateless_deterministic.1 [(none, [])] [(none, []), (some "1", [255])] 0 rfl

/-- Claim C9: a POST body that is valid JSON whose top-level value is
neither an array nor a mapping is answered with the single parse-error
object (code -32700), because `req.get` raises `AttributeError` inside
the `try`. -/
theorem c9_non_container_top_level (body : String) (v : Json)
    (hp : jsonLoads body = .ok v) (ho : v.isObj = false) (ha : v.isArr = false) :
    ∃ msg, doPOSTstr body = ⟨200, "application/json", jsonDumps (errorResp msg)⟩ := by
  obtain ⟨e, he⟩ := respFor_isObj_err v ho
  refine ⟨e, ?_⟩
  have ht : tryBlock (Except.ok v) = errorResp e := by
    cases v <;> simp_all [tryBlock, Json.isArr, Json.isObj]
  rw [doPOSTstr_eq, hp, ht]

/-- Witness for C9 at the body `5`. -/
theorem c9_non_container_top_level_witness :
    ∃ msg, doPOSTstr "5" = ⟨200, "application/json", jsonDumps (errorResp msg)⟩ :=
  c9_non_container_top_level "5" (Json.num 5) rfl rfl rfl

/-- Claim C10: a JSON array body with at least one non-mapping element is
answered with the single parse-error object, not with a (partial) array
of responses: the loop raises at the offending element and the `except`
branch replaces everything. -/
theorem c10_batch_with_non_mapping (body : String) (rs : List Json)
    (hp : jsonLoads body = .ok (Json.arr (JsonList.ofList rs)))
    (hbad : ∃ r ∈ rs, r.isObj = false) :
    ∃ msg, doPOSTstr body = ⟨200, "application/json", jsonDumps (errorResp msg)⟩ := by
  obtain ⟨e, he⟩ := batchLoop_err rs hbad
  refine ⟨e, ?_⟩
  rw [doPOSTstr_eq, hp]
  simp [tryBlock, he]

/-- Witness for C10 at the body `[{"id":1},5]`. -/
theorem c10_batch_with_non_mapping_witness :
    ∃ msg, doPOSTstr "[\x7b\"id\":1\x7d,5]" =
      ⟨200, "application/json", jsonDumps (errorResp msg)⟩ :=
  c10_batch_with_non_mapping "[\x7b\"id\":1\x7d,5]"
    [Json.obj (JsonFields.ofList [("id", Json.num 1)]), Json.num 5]
    rfl ⟨Json.num 5, by simp, rfl⟩

end MockRpc
